import Mathlib

/-!
Shallow embedding of `notare-monitor` (src/src/index.ts) in Lean 4,
with theorems settling the specification claims about it.

Modelling conventions:
* JavaScript numbers that hold nanosecond/microsecond readings or rates are
  embedded as `ℚ` (or `ℤ` where the source value is integral); `NaN` arising
  from `undefined - 1` is modelled by `Option ℤ` (`none` = NaN).
* A JavaScript `Map` is an insertion-ordered association list with unique
  keys; `Map.prototype.set` replaces in place, `delete` removes the key.
* The Node.js `Readable` push buffer is a `List`; `push` appends.
-/

/-- A JS number that may be `NaN` (`none`): arises from `undefined - 1` in
`HandleTracker`'s destroy hook. -/
def JsNum : Type := Option ℤ

instance : DecidableEq JsNum := by unfold JsNum; infer_instance

/-- `x - 1` on a possibly-undefined map lookup: `undefined - 1` is `NaN`,
`NaN - 1` is `NaN`. Mirrors `(self.#counts as any).get(type) - 1`. -/
def jsDec1 : Option JsNum → JsNum
  | some (some n) => some (n - 1)
  | _ => none

/-- JS truthiness coercion `(x || 0)` for a possibly-undefined numeric lookup:
`undefined || 0 = 0`, `NaN || 0 = 0`, `0 || 0 = 0`, otherwise the number.
Mirrors `(self.#counts.get(type) || 0)`. -/
def jsOr0 : Option JsNum → ℤ
  | some (some n) => n
  | _ => 0

/-- `value > 0` in JS, where `value` may be `NaN` (comparison with `NaN` is
false). -/
def jsGt0 : JsNum → Bool
  | some n => decide (0 < n)
  | none => false

/-- `value === 0` in JS, where `value` may be `NaN`. -/
def jsEq0 : JsNum → Bool
  | some n => decide (n = 0)
  | none => false

/-- Insertion-ordered association-list update, the semantics of
`Map.prototype.set`: replace the value at an existing key in place, otherwise
append the pair at the end. -/
def mapSet {α β : Type} [DecidableEq α] : List (α × β) → α → β → List (α × β)
  | [], k, v => [(k, v)]
  | kv :: rest, k, v =>
    if kv.1 = k then (k, v) :: rest else kv :: mapSet rest k v

/-- `Map.prototype.get`: first (only) value stored at the key, if any. -/
def mapGet {α β : Type} [DecidableEq α] : List (α × β) → α → Option β
  | [], _ => none
  | kv :: rest, k => if kv.1 = k then some kv.2 else mapGet rest k

/-- `Map.prototype.delete`: remove the key. -/
def mapDelete {α β : Type} [DecidableEq α] (m : List (α × β)) (k : α) :
    List (α × β) :=
  m.filter (fun kv => kv.1 ≠ k)

/-- `Map.prototype.has`. -/
def mapHas {α β : Type} [DecidableEq α] (m : List (α × β)) (k : α) : Bool :=
  (mapGet m k).isSome

/-- State of `HandleTracker`: `#types : Map<number, string>` maps async ids to
resource types, `#counts : Map<string, number>` maps types to live counts. -/
structure TrackerState where
  types : List (ℕ × String)
  counts : List (String × JsNum)
  deriving DecidableEq

/-- A fresh `HandleTracker` (constructor, before any hook fires). -/
def TrackerState.fresh : TrackerState := ⟨[], []⟩

/-- The `init (id, type)` async-hook callback of `HandleTracker`. -/
def trackerInit (s : TrackerState) (id : ℕ) (ty : String) : TrackerState :=
  { types := mapSet s.types id ty
    counts :=
      if mapHas s.counts ty = false then
        mapSet s.counts ty (some 1)
      else
        mapSet s.counts ty (some (jsOr0 (mapGet s.counts ty) + 1)) }

/-- The `destroy (id)` async-hook callback of `HandleTracker`: look the id's
type up, delete the id, and if the type was known decrement its count,
deleting the count entry when it hits exactly `0`. -/
def trackerDestroy (s : TrackerState) (id : ℕ) : TrackerState :=
  let ty? := mapGet s.types id
  let types := mapDelete s.types id
  match ty? with
  | none => { s with types := types }
  | some ty =>
    let newCount := jsDec1 (mapGet s.counts ty)
    let counts := mapSet s.counts ty newCount
    let counts := if jsEq0 newCount then mapDelete counts ty else counts
    { types := types, counts := counts }

/-- The parallel `titles`/`data` arrays returned by the `counts` getter. -/
structure HandlesSample where
  titles : List String
  data : List ℤ
  deriving DecidableEq

/-- The resource types the monitor itself creates (`UDPWRAP`, `Timeout`,
`ELDHISTOGRAM`), filtered out of snapshots by the `counts` getter. -/
def notareReserved (k : String) : Bool :=
  k == "UDPWRAP" || k == "Timeout" || k == "ELDHISTOGRAM"

/-- The per-entry body of the `counts` getter's `forEach`: decrement reserved
types by one, keep the entry only when the (possibly adjusted) value is
`> 0`. Entries are visited in map order and `titles`/`data` are pushed in
lockstep, so the getter is the `filterMap` of this body. -/
def countsEntry (kv : String × JsNum) : Option (String × ℤ) :=
  match (if notareReserved kv.1 then jsDec1 (some kv.2) else kv.2 : Option ℤ) with
  | some n => if 0 < n then some (kv.1, n) else none
  | none => none

/-- The key/value pairs emitted by the `counts` getter, in visit order. -/
def countsEntries (m : List (String × JsNum)) : List (String × ℤ) :=
  m.filterMap countsEntry

/-- The `counts` getter of `HandleTracker`. -/
def trackerCounts (s : TrackerState) : HandlesSample :=
  { titles := (countsEntries s.counts).map Prod.fst
    data := (countsEntries s.counts).map Prod.snd }

/-- A resource-lifecycle notification delivered to the tracker's hooks. -/
inductive HookEvent where
  | create (id : ℕ) (ty : String)
  | destroy (id : ℕ)
  deriving DecidableEq

/-- Run a sequence of creation/destruction events on a fresh tracker. -/
def applyEvents (evs : List HookEvent) : TrackerState :=
  evs.foldl
    (fun s ev =>
      match ev with
      | .create id ty => trackerInit s id ty
      | .destroy id => trackerDestroy s id)
    TrackerState.fresh

/-- A value a JS caller may pass for an optional typed field of
`MonitorOptions`: absent/`undefined`, a value of the declared type, or a value
of some other runtime type (its JS truthiness recorded). -/
inductive JsVal (α : Type) where
  | undef
  | other (truthy : Bool)
  | val (a : α)
  deriving DecidableEq

/-- The `options` argument of the `Monitor` constructor
(`hz? : number, handles? : boolean, gc? : boolean`). -/
structure OptionsV where
  hz : JsVal ℚ
  handles : JsVal Bool
  gc : JsVal Bool
  deriving DecidableEq

/-- `kDefaultMonitorOptions` after the spread has filled every field. -/
structure FilledMonitorOptions where
  hz : ℚ
  handles : Bool
  gc : Bool
  deriving DecidableEq

/-- `kDefaultMonitorOptions`, parameterised by the environment:
`hz: parseInt(process.env.NOTARE_HZ || '0') || 2` (the `parseInt` result is
passed in, `none` standing for `NaN`), `handles`/`gc`: whether the
corresponding variable is the string `"1"`. -/
def kDefaultMonitorOptions (envHz : Option ℤ) (envHandles envGc : Option String) :
    FilledMonitorOptions :=
  { hz := match envHz with
      | none => 2
      | some n => if n = 0 then 2 else (n : ℚ)
    handles := envHandles = some "1"
    gc := envGc = some "1" }

/-- The errors the `Monitor` constructor can throw while validating options. -/
inductive ConfigError where
  | typeErrorHz
  | rangeErrorHz
  | typeErrorHandles
  deriving DecidableEq

/-- The option validation at the top of the `Monitor` constructor: `hz`, when
present, must be a number (else `TypeError`) in `[1, 1000]` (else
`RangeError`); `handles`, when present, must be a boolean (else `TypeError`).
No check is made of `gc`. -/
def validateOptions (o : OptionsV) : Except ConfigError Unit := do
  match o.hz with
  | .undef => pure ()
  | .other _ => throw .typeErrorHz
  | .val q =>
    if q < 1 ∨ q > 1000 then throw .rangeErrorHz else pure ()
  match o.handles with
  | .undef => pure ()
  | .other _ => throw .typeErrorHandles
  | .val _ => pure ()

/-- `{ ...kDefaultMonitorOptions, ...options }`: a present field (of any
runtime type, its truthiness kept for the later `if (...)` checks) overrides
the default. -/
def fillOptions (defaults : FilledMonitorOptions) (o : OptionsV) :
    FilledMonitorOptions :=
  { hz := match o.hz with
      | .undef => defaults.hz
      | .other t => if t then 1 else 0
      | .val q => q
    handles := match o.handles with
      | .undef => defaults.handles
      | .other t => t
      | .val b => b
    gc := match o.gc with
      | .undef => defaults.gc
      | .other t => t
      | .val b => b }

/-- JS `x || y` on numbers: `y` when `x` is falsy (`0`), else `x`. -/
def jsOrNum (x y : ℚ) : ℚ := if x = 0 then y else x

/-- The side effects the `Monitor` constructor performs after validation, in
program order. -/
inductive CtorAction where
  | pushSample
  | armTimer (delayMs : ℤ)
  | enableEld (resolution : ℤ)
  | unrefTimer
  | newHandleTracker
  | newGCTracker
  deriving DecidableEq

/-- The result of a successful `Monitor` construction: the filled options,
the computed timer interval, the resolution handed to
`monitorEventLoopDelay` (when the platform supports it), and the ordered
trace of constructor side effects. -/
structure MonitorInit where
  options : FilledMonitorOptions
  delay : ℤ
  elmonitorResolution : Option ℤ
  trace : List CtorAction
  deriving DecidableEq

/-- The `Monitor` constructor: validate the options, fill them from
`kDefaultMonitorOptions`, compute
`delay = Math.floor(1000 / (options.hz || kDefaultMonitorOptions.hz))`, take
one sample synchronously (`this._sample()`), arm the repeating timer at
`delay`, enable `monitorEventLoopDelay({ resolution: delay })` when the
platform provides it, unref the timer, and conditionally construct the
`HandleTracker` and `GCTracker`. -/
def monitorConstruct (defaults : FilledMonitorOptions) (eldSupported : Bool)
    (o : OptionsV) : Except ConfigError MonitorInit := do
  validateOptions o
  let filled := fillOptions defaults o
  let delay : ℤ := ⌊1000 / jsOrNum filled.hz defaults.hz⌋
  pure
    { options := filled
      delay := delay
      elmonitorResolution := if eldSupported then some delay else none
      trace :=
        [.pushSample, .armTimer delay] ++
          (if eldSupported then [.enableEld delay] else []) ++
          [.unrefTimer] ++
          (if filled.handles then [.newHandleTracker] else []) ++
          (if filled.gc then [.newGCTracker] else []) }

/-- How many samples a (possibly failed) construction pushed downstream. -/
def samplesPushed : Except ConfigError MonitorInit → ℕ
  | .error _ => 0
  | .ok m => (m.trace.filter (· = CtorAction.pushSample)).length

/-- `Monitor._cpupct`, as a function of its inputs: the current and previous
monotonic timestamps in nanoseconds (`process.hrtime.bigint()`), and the
user/system CPU time consumed since the previous call in microseconds
(`process.cpuUsage(previous)`). The source computes
`elapsed = (now - lastTS) / 1e6` and `total = (user + system) / 1e6` and
returns `total / elapsed`. -/
def cpupct (nowNs lastTSNs userUs systemUs : ℤ) : ℚ :=
  let elapsed : ℚ := ((nowNs - lastTSNs : ℤ) : ℚ) / 1000000
  let total : ℚ := ((userUs + systemUs : ℤ) : ℚ) / 1000000
  total / elapsed

/-- Modelled from the spec: the CPU-utilization formula the spec claims,
(CPU-seconds consumed since the previous tick) / (wall-clock seconds elapsed
since the previous tick), over the same raw inputs. -/
def specCpuPerWallSecond (nowNs lastTSNs userUs systemUs : ℤ) : ℚ :=
  (((userUs + systemUs : ℤ) : ℚ) / 1000000) /
    (((nowNs - lastTSNs : ℤ) : ℚ) / 1000000000)

/-- The running state relevant to publication: the `Readable` push buffer,
whether the interval timer is armed, and whether the downstream consumer is
ready to accept more data. -/
structure MonitorRun where
  buffer : List Unit
  timerArmed : Bool
  consumerReady : Bool
  deriving DecidableEq

/-- One timer tick, `Monitor._sample`: assemble the sample and
`this.push(sample)` — the push return value is discarded, and neither the
timer nor the consumer-readiness signal is consulted or changed. -/
def monitorTick (m : MonitorRun) : MonitorRun :=
  { m with buffer := m.buffer ++ [()] }

/-- `Monitor._read`: `// Nothing to do here`. -/
def monitorRead (m : MonitorRun) : MonitorRun := m

/-! ## Helper lemmas -/

theorem countsEntry_eq_some {a : String × JsNum} {kv : String × ℤ}
    (h : countsEntry a = some kv) : kv.1 = a.1 ∧ 0 < kv.2 := by
  unfold countsEntry at h
  split at h
  · split at h
    · cases h
      exact ⟨rfl, by assumption⟩
    · cases h
  · cases h

theorem countsEntries_pos {m : List (String × JsNum)} {kv : String × ℤ}
    (h : kv ∈ countsEntries m) : 0 < kv.2 := by
  rcases List.mem_filterMap.mp h with ⟨a, _, ha⟩
  exact (countsEntry_eq_some ha).2

theorem mem_countsEntries_key {m : List (String × JsNum)} {kv : String × ℤ}
    (h : kv ∈ countsEntries m) : kv.1 ∈ m.map Prod.fst := by
  rcases List.mem_filterMap.mp h with ⟨a, ham, ha⟩
  rw [(countsEntry_eq_some ha).1]
  exact List.mem_map_of_mem Prod.fst ham

theorem countsEntries_filter_of_not_mem {m : List (String × JsNum)} {k : String}
    (h : k ∉ m.map Prod.fst) :
    (countsEntries m).filter (fun kv => kv.1 == k) = [] := by
  rw [List.filter_eq_nil_iff]
  intro kv hkv hbeq
  have hk : kv.1 = k := by simpa using hbeq
  exact h (hk ▸ mem_countsEntries_key hkv)

theorem mapDelete_of_get_none {α β : Type} [DecidableEq α] {m : List (α × β)}
    {k : α} (h : mapGet m k = none) : mapDelete m k = m := by
  induction m with
  | nil => rfl
  | cons a rest ih =>
    rw [mapGet] at h
    by_cases hak : a.1 = k
    · rw [if_pos hak] at h
      cases h
    · rw [if_neg hak] at h
      have h2 : mapDelete rest k = rest := ih h
      simp only [mapDelete] at h2 ⊢
      rw [List.filter_cons, if_pos (by simp [hak]), h2]

theorem trackerDestroy_of_unknown_id (s : TrackerState) (id : ℕ)
    (h : mapGet s.types id = none) : trackerDestroy s id = s := by
  unfold trackerDestroy
  rw [h]
  simp only
  rw [mapDelete_of_get_none h]

/-! ## Claims -/

/-- Claim C8: on a fresh tracker, after `onCreate(1, "A")` the snapshot
contains exactly the entry `"A" ↦ 1`; after a subsequent `onDestroy(1)` the
snapshot contains no `"A"` entry; and `onDestroy` of an identifier that is
not registered leaves the tracker state unchanged (the handlers are total
functions, so no exception is thrown). -/
theorem tracker_create_destroy_scenario :
    trackerCounts (trackerInit TrackerState.fresh 1 "A") =
      { titles := ["A"], data := [1] } ∧
    "A" ∉ (trackerCounts
      (trackerDestroy (trackerInit TrackerState.fresh 1 "A") 1)).titles ∧
    ∀ (s : TrackerState) (id : ℕ),
      mapGet s.types id = none → trackerDestroy s id = s :=
  ⟨by decide, by decide, trackerDestroy_of_unknown_id⟩

/-- Witness for C8: the no-op conclusion at a concrete unregistered id. -/
theorem tracker_create_destroy_scenario_witness :
    trackerDestroy ⟨[(2, "B")], [("B", some 1)]⟩ 7 =
      ⟨[(2, "B")], [("B", some 1)]⟩ :=
  tracker_create_destroy_scenario.2.2 ⟨[(2, "B")], [("B", some 1)]⟩ 7 (by decide)

/-- Claim C9: after any sequence of creation/destruction events, every count
in the snapshot the `counts` getter produces is strictly positive. -/
theorem snapshot_counts_strictly_positive (evs : List HookEvent) (c : ℤ)
    (hc : c ∈ (trackerCounts (applyEvents evs)).data) : 0 < c := by
  simp only [trackerCounts, List.mem_map] at hc
  rcases hc with ⟨kv, hkv, rfl⟩
  exact countsEntries_pos hkv

/-- Witness for C9: the event sequence `[create 1 "A"]` yields the snapshot
count `1`, which the theorem shows positive. -/
theorem snapshot_counts_strictly_positive_witness :
    (1 : ℤ) ∈ (trackerCounts (applyEvents [.create 1 "A"])).data ∧ (0 : ℤ) < 1 :=
  ⟨by decide, snapshot_counts_strictly_positive [.create 1 "A"] 1 (by decide)⟩

/-- Claim C5: in a snapshot of any counts map (keys unique, as in a JS `Map`),
a reserved resource type (`UDPWRAP`, `Timeout`, `ELDHISTOGRAM`) whose raw
observed count is `v` is reported with count exactly `v - 1` when `v - 1 > 0`
and is omitted entirely otherwise (in particular when the adjusted count is
zero); and every reported count is strictly positive, so never negative. -/
theorem reserved_types_reported_one_less (m : List (String × JsNum))
    (hnd : (m.map Prod.fst).Nodup) (k : String) (v : ℤ)
    (hres : notareReserved k = true) (hget : mapGet m k = some (some v)) :
    (countsEntries m).filter (fun kv => kv.1 == k) =
      (if 0 < v - 1 then [(k, v - 1)] else []) ∧
    ∀ kv ∈ countsEntries m, 0 < kv.2 := by
  refine ⟨?_, fun kv hkv => countsEntries_pos hkv⟩
  induction m with
  | nil => cases hget
  | cons a rest ih =>
    rw [List.map_cons, List.nodup_cons] at hnd
    rw [mapGet] at hget
    by_cases hak : a.1 = k
    · rw [if_pos hak] at hget
      have ha2 : a.2 = some v := by injection hget
      have hhead : countsEntry a =
          if 0 < v - 1 then some (k, v - 1) else none := by
        unfold countsEntry
        rw [hak, hres, ha2]
        by_cases hv : 0 < v - 1
        · rw [if_pos hv]
          show (if 0 < v - 1 then some (k, v - 1) else none) = some (k, v - 1)
          rw [if_pos hv]
        · rw [if_neg hv]
          show (if 0 < v - 1 then some (k, v - 1) else none) = none
          rw [if_neg hv]
      have htail : (countsEntries rest).filter (fun kv => kv.1 == k) = [] :=
        countsEntries_filter_of_not_mem (hak ▸ hnd.1)
      simp only [countsEntries, List.filterMap_cons]
      by_cases hv : 0 < v - 1
      · rw [hhead, if_pos hv]
        rw [List.filter_cons]
        simp only [countsEntries] at htail
        rw [if_pos (by simp), htail, if_pos hv]
      · rw [hhead, if_neg hv]
        simp only [countsEntries] at htail
        rw [htail, if_neg hv]
    · rw [if_neg hak] at hget
      have htail := ih hnd.2 hget
      simp only [countsEntries, List.filterMap_cons]
      rcases he : countsEntry a with _ | e
      · exact htail
      · rw [List.filter_cons]
        have hek : (e.1 == k) = false := by
          have := (countsEntry_eq_some he).1
          simp [this, hak]
        rw [hek]
        simp only [Bool.false_eq_true, if_false]
        exact htail

/-- Witness for C5: a raw count of `2` for the reserved type `Timeout` is
reported as `1`. -/
theorem reserved_types_reported_one_less_witness :
    (countsEntries [("Timeout", some 2)]).filter (fun kv => kv.1 == "Timeout") =
      (if 0 < (2 : ℤ) - 1 then [("Timeout", (2 : ℤ) - 1)] else []) ∧
    ∀ kv ∈ countsEntries [("Timeout", some 2)], 0 < kv.2 :=
  reserved_types_reported_one_less [("Timeout", some 2)] (by decide)
    "Timeout" 2 (by decide) (by decide)

theorem monitorConstruct_eq (defaults : FilledMonitorOptions) (eldSupported : Bool)
    (o : OptionsV) (hv : validateOptions o = .ok ()) :
    monitorConstruct defaults eldSupported o =
      .ok { options := fillOptions defaults o
            delay := ⌊1000 / jsOrNum (fillOptions defaults o).hz defaults.hz⌋
            elmonitorResolution :=
              if eldSupported then
                some ⌊1000 / jsOrNum (fillOptions defaults o).hz defaults.hz⌋
              else none
            trace :=
              [.pushSample,
               .armTimer ⌊1000 / jsOrNum (fillOptions defaults o).hz defaults.hz⌋] ++
                (if eldSupported then
                  [.enableEld ⌊1000 / jsOrNum (fillOptions defaults o).hz defaults.hz⌋]
                 else []) ++
                [.unrefTimer] ++
                (if (fillOptions defaults o).handles then [.newHandleTracker] else []) ++
                (if (fillOptions defaults o).gc then [.newGCTracker] else []) } := by
  unfold monitorConstruct
  rw [hv]
  rfl

theorem monitorConstruct_error (defaults : FilledMonitorOptions)
    (eldSupported : Bool) (o : OptionsV) (e : ConfigError)
    (hv : validateOptions o = .error e) :
    monitorConstruct defaults eldSupported o = .error e := by
  unfold monitorConstruct
  rw [hv]
  rfl

theorem validateOptions_inrange (o : OptionsV) (q : ℚ) (ho : o.hz = .val q)
    (hh : o.handles = .undef) (h1 : 1 ≤ q) (h2 : q ≤ 1000) :
    validateOptions o = .ok () := by
  simp only [validateOptions, ho, hh]
  rw [if_neg (by simp only [not_or, not_lt]; exact ⟨h1, h2⟩)]
  rfl

/-- Claim C6: for every rate `r` the validation admits (`1 ≤ r ≤ 1000`), the
constructed monitor's tick interval is `⌊1000 / r⌋` milliseconds, the
repeating timer is armed at exactly that interval, and the scheduler-delay
instrumentation (when the platform supports it) is configured with a
resolution equal to that same interval. -/
theorem valid_rate_tick_interval (defaults : FilledMonitorOptions) (r : ℚ)
    (h1 : 1 ≤ r) (h2 : r ≤ 1000) :
    ∃ m : MonitorInit,
      monitorConstruct defaults true
        { hz := .val r, handles := .undef, gc := .undef } = .ok m ∧
      m.delay = ⌊(1000 : ℚ) / r⌋ ∧
      CtorAction.armTimer ⌊(1000 : ℚ) / r⌋ ∈ m.trace ∧
      m.elmonitorResolution = some m.delay := by
  have hr0 : r ≠ 0 := by linarith
  have hv := validateOptions_inrange
    { hz := .val r, handles := .undef, gc := .undef } r rfl rfl h1 h2
  refine ⟨_, monitorConstruct_eq defaults true _ hv, ?_, ?_, ?_⟩
  · simp [fillOptions, jsOrNum, hr0]
  · simp [fillOptions, jsOrNum, hr0]
  · simp [fillOptions, jsOrNum, hr0]

/-- Witness for C6: at rate `3`, the interval is `⌊1000/3⌋ = 333` ms. -/
theorem valid_rate_tick_interval_witness :
    1 ≤ (3 : ℚ) ∧ (3 : ℚ) ≤ 1000 ∧
    (∃ m : MonitorInit,
      monitorConstruct (kDefaultMonitorOptions none none none) true
        { hz := .val 3, handles := .undef, gc := .undef } = .ok m ∧
      m.delay = ⌊(1000 : ℚ) / 3⌋ ∧
      CtorAction.armTimer ⌊(1000 : ℚ) / 3⌋ ∈ m.trace ∧
      m.elmonitorResolution = some m.delay) :=
  ⟨by norm_num, by norm_num,
    valid_rate_tick_interval (kDefaultMonitorOptions none none none) 3
      (by norm_num) (by norm_num)⟩

/-- Claim C7: every successful construction takes one sample synchronously
before the repeating timer is armed: the first constructor side effect is
the sample push and only the second arms the timer. -/
theorem first_sample_before_timer_armed (defaults : FilledMonitorOptions)
    (eldSupported : Bool) (o : OptionsV) (m : MonitorInit)
    (h : monitorConstruct defaults eldSupported o = .ok m) :
    m.trace.take 2 = [CtorAction.pushSample, CtorAction.armTimer m.delay] := by
  rcases hv : validateOptions o with e | u
  · rw [monitorConstruct_error defaults eldSupported o e hv] at h
    cases h
  · cases u
    rw [monitorConstruct_eq defaults eldSupported o hv] at h
    cases h
    rfl

theorem monitorConstruct_default_case :
    monitorConstruct ⟨2, false, false⟩ false
      { hz := .undef, handles := .undef, gc := .undef } =
      .ok { options := ⟨2, false, false⟩, delay := 500, elmonitorResolution := none,
            trace := [.pushSample, .armTimer 500, .unrefTimer] } := by
  rw [monitorConstruct_eq ⟨2, false, false⟩ false _ (by rfl)]
  norm_num [fillOptions, jsOrNum, Int.floor_eq_iff]

/-- Witness for C7: the default construction pushes its sample first and arms
the timer (at 500 ms) second. -/
theorem first_sample_before_timer_armed_witness :
    (({ options := ⟨2, false, false⟩, delay := 500, elmonitorResolution := none,
        trace := [.pushSample, .armTimer 500, .unrefTimer] } : MonitorInit)).trace.take 2 =
      [CtorAction.pushSample, CtorAction.armTimer 500] :=
  first_sample_before_timer_armed ⟨2, false, false⟩ false
    { hz := .undef, handles := .undef, gc := .undef } _ monitorConstruct_default_case

/-- Counterexample to claim C3: `hz = 5/2` is not an integer (its floor
differs from it), yet construction succeeds — the validation checks only the
runtime type and the `[1, 1000]` range, never integrality. -/
theorem noninteger_rate_accepted :
    ((⌊(5 / 2 : ℚ)⌋ : ℚ) ≠ (5 / 2 : ℚ)) ∧
    monitorConstruct (kDefaultMonitorOptions none none none) true
      { hz := .val (5 / 2), handles := .undef, gc := .undef } =
      .ok { options := { hz := 5 / 2, handles := false, gc := false },
            delay := 400, elmonitorResolution := some 400,
            trace := [.pushSample, .armTimer 400, .enableEld 400, .unrefTimer] } := by
  constructor
  · rw [show ⌊(5 / 2 : ℚ)⌋ = 2 by norm_num [Int.floor_eq_iff]]
    norm_num
  · rw [monitorConstruct_eq (kDefaultMonitorOptions none none none) true _
      (validateOptions_inrange _ (5 / 2) rfl rfl (by norm_num) (by norm_num))]
    norm_num [fillOptions, jsOrNum, kDefaultMonitorOptions, Int.floor_eq_iff]
    exact fun h => Option.noConfusion h

/-- Claim C3 as amended: a rate that is present and is a number outside
`[1, 1000]` is rejected at construction with a `RangeError`, a rate of a
non-number runtime type is rejected with a `TypeError`, and in both cases no
sample is pushed; non-integer numbers inside the range are not rejected. -/
theorem invalid_rate_rejected_no_sample (defaults : FilledMonitorOptions)
    (eldSupported : Bool) (o : OptionsV) :
    (∀ q : ℚ, o.hz = .val q → q < 1 ∨ q > 1000 →
      monitorConstruct defaults eldSupported o = .error .rangeErrorHz ∧
      samplesPushed (monitorConstruct defaults eldSupported o) = 0) ∧
    (∀ t : Bool, o.hz = .other t →
      monitorConstruct defaults eldSupported o = .error .typeErrorHz ∧
      samplesPushed (monitorConstruct defaults eldSupported o) = 0) := by
  constructor
  · intro q hq hrange
    have hv : validateOptions o = .error .rangeErrorHz := by
      simp only [validateOptions, hq]
      rw [if_pos hrange]
      rfl
    have hc := monitorConstruct_error defaults eldSupported o _ hv
    exact ⟨hc, by rw [hc]; rfl⟩
  · intro t ht
    have hv : validateOptions o = .error .typeErrorHz := by
      simp only [validateOptions, ht]
      rfl
    have hc := monitorConstruct_error defaults eldSupported o _ hv
    exact ⟨hc, by rw [hc]; rfl⟩

/-- Witness for C3 (amended): rate `0` is rejected with a `RangeError` and no
sample is pushed. -/
theorem invalid_rate_rejected_no_sample_witness :
    monitorConstruct (kDefaultMonitorOptions none none none) true
      { hz := .val 0, handles := .undef, gc := .undef } = .error .rangeErrorHz ∧
    samplesPushed (monitorConstruct (kDefaultMonitorOptions none none none) true
      { hz := .val 0, handles := .undef, gc := .undef }) = 0 :=
  (invalid_rate_rejected_no_sample (kDefaultMonitorOptions none none none) true
    { hz := .val 0, handles := .undef, gc := .undef }).1 0 rfl (by norm_num)

/-- Counterexample to claim C4: a non-boolean (truthy) `gc` value passes
construction — only `handles` is type-checked; the non-boolean `gc` is even
used, truthily, to construct the `GCTracker`. -/
theorem nonboolean_gc_accepted :
    monitorConstruct (kDefaultMonitorOptions none none none) true
      { hz := .undef, handles := .undef, gc := .other true } =
      .ok { options := { hz := 2, handles := false, gc := true },
            delay := 500, elmonitorResolution := some 500,
            trace := [.pushSample, .armTimer 500, .enableEld 500, .unrefTimer,
                      .newGCTracker] } := by
  rw [monitorConstruct_eq (kDefaultMonitorOptions none none none) true _ (by rfl)]
  norm_num [fillOptions, jsOrNum, kDefaultMonitorOptions, Int.floor_eq_iff]
  exact fun h => Option.noConfusion h

/-- Claim C4 as amended: construction validates only the resource-tracking
(`handles`) flag — a present non-boolean `handles` fails fast with a
`TypeError` and no sample is pushed — while the GC-tracking (`gc`) flag is
never validated: with `handles` absent, construction succeeds whatever the
`gc` value is. -/
theorem only_handles_flag_validated (defaults : FilledMonitorOptions)
    (eldSupported : Bool) (o : OptionsV) (hhz : o.hz = .undef) :
    (∀ t : Bool, o.handles = .other t →
      monitorConstruct defaults eldSupported o = .error .typeErrorHandles ∧
      samplesPushed (monitorConstruct defaults eldSupported o) = 0) ∧
    (o.handles = .undef →
      ∃ m : MonitorInit, monitorConstruct defaults eldSupported o = .ok m) := by
  constructor
  · intro t ht
    have hv : validateOptions o = .error .typeErrorHandles := by
      simp only [validateOptions, hhz, ht]
      rfl
    have hc := monitorConstruct_error defaults eldSupported o _ hv
    exact ⟨hc, by rw [hc]; rfl⟩
  · intro hh
    have hv : validateOptions o = .ok () := by
      simp only [validateOptions, hhz, hh]
      rfl
    exact ⟨_, monitorConstruct_eq defaults eldSupported o hv⟩

/-- Witness for C4 (amended): a non-boolean `handles` is rejected with no
sample pushed, and with `handles` absent a non-boolean `gc` still constructs. -/
theorem only_handles_flag_validated_witness :
    (monitorConstruct (kDefaultMonitorOptions none none none) true
      { hz := .undef, handles := .other true, gc := .undef } =
        .error .typeErrorHandles ∧
      samplesPushed (monitorConstruct (kDefaultMonitorOptions none none none) true
        { hz := .undef, handles := .other true, gc := .undef }) = 0) ∧
    (∃ m : MonitorInit,
      monitorConstruct (kDefaultMonitorOptions none none none) true
        { hz := .undef, handles := .undef, gc := .other false } = .ok m) :=
  ⟨(only_handles_flag_validated (kDefaultMonitorOptions none none none) true
      { hz := .undef, handles := .other true, gc := .undef } rfl).1 true rfl,
    (only_handles_flag_validated (kDefaultMonitorOptions none none none) true
      { hz := .undef, handles := .undef, gc := .other false } rfl).2 rfl⟩

/-- Claim C10: when `hz` is absent from the options, the `NOTARE_HZ` value is
taken as the rate with no range check: for every positive integer `n` above
the `[1, 1000]` range, construction succeeds with rate `n`, and the tick
interval is computed from that out-of-range rate as `⌊1000 / n⌋`. -/
theorem env_rate_used_unchecked (n : ℤ) (hpos : 0 < n) (hbig : 1000 < n)
    (envHandles envGc : Option String) (eldSupported : Bool) :
    ∃ m : MonitorInit,
      monitorConstruct (kDefaultMonitorOptions (some n) envHandles envGc)
        eldSupported { hz := .undef, handles := .undef, gc := .undef } = .ok m ∧
      m.options.hz = (n : ℚ) ∧
      m.delay = ⌊(1000 : ℚ) / (n : ℚ)⌋ ∧
      CtorAction.armTimer ⌊(1000 : ℚ) / (n : ℚ)⌋ ∈ m.trace := by
  have hnz : n ≠ 0 := by omega
  have hn0 : (n : ℚ) ≠ 0 := Int.cast_ne_zero.mpr hnz
  have hv : validateOptions { hz := .undef, handles := .undef, gc := .undef } =
      .ok () := rfl
  refine ⟨_, monitorConstruct_eq _ eldSupported _ hv, ?_, ?_, ?_⟩
  · simp [fillOptions, kDefaultMonitorOptions, hnz]
  · simp [fillOptions, kDefaultMonitorOptions, jsOrNum, hnz, hn0]
  · simp [fillOptions, kDefaultMonitorOptions, jsOrNum, hnz, hn0]

/-- Witness for C10: `NOTARE_HZ=5000` is accepted and yields interval
`⌊1000/5000⌋ = 0` ms. -/
theorem env_rate_used_unchecked_witness :
    (0 : ℤ) < 5000 ∧ (1000 : ℤ) < 5000 ∧
    (∃ m : MonitorInit,
      monitorConstruct (kDefaultMonitorOptions (some 5000) none none)
        true { hz := .undef, handles := .undef, gc := .undef } = .ok m ∧
      m.options.hz = ((5000 : ℤ) : ℚ) ∧
      m.delay = ⌊(1000 : ℚ) / ((5000 : ℤ) : ℚ)⌋ ∧
      CtorAction.armTimer ⌊(1000 : ℚ) / ((5000 : ℤ) : ℚ)⌋ ∈ m.trace) :=
  ⟨by norm_num, by norm_num,
    env_rate_used_unchecked 5000 (by norm_num) (by norm_num) none none true⟩

/-- Counterexample to claim C2: over a tick of exactly one wall-clock second
(`10^9` ns) that consumed exactly one CPU-second (`10^6` µs), `_cpupct`
returns `1/1000`, not the `1` that the claimed CPU-seconds-per-wall-second
formula yields: the divisor is wall-clock milliseconds, not seconds. -/
theorem cpupct_not_per_wall_second :
    cpupct 1000000000 0 1000000 0 = 1 / 1000 ∧
    specCpuPerWallSecond 1000000000 0 1000000 0 = 1 ∧
    cpupct 1000000000 0 1000000 0 ≠ specCpuPerWallSecond 1000000000 0 1000000 0 := by
  refine ⟨by norm_num [cpupct], by norm_num [specCpuPerWallSecond], ?_⟩
  norm_num [cpupct, specCpuPerWallSecond]

/-- Claim C2 as amended: on each tick the emitted CPU field equals
(CPU-seconds consumed since the previous tick) divided by (wall-clock
*milliseconds* elapsed since the previous tick) — both from the monotonic
sources `process.hrtime.bigint` and `process.cpuUsage` — i.e. exactly 1/1000
of the ratio the original claim states. -/
theorem cpupct_is_per_wall_millisecond (nowNs lastTSNs userUs systemUs : ℤ) :
    cpupct nowNs lastTSNs userUs systemUs * 1000 =
      specCpuPerWallSecond nowNs lastTSNs userUs systemUs := by
  simp only [cpupct, specCpuPerWallSecond]
  rw [div_div_eq_mul_div, div_div_eq_mul_div, div_mul_eq_mul_div]
  ring_nf

/-- Counterexample to claim C1: in a running state whose downstream consumer
is not ready, a timer tick still does the sampling work — the state changes,
the sample is appended to the stream buffer, and the timer stays armed —
rather than sampling being suspended until capacity is signalled. -/
theorem tick_buffers_when_not_ready :
    (MonitorRun.consumerReady ⟨[], true, false⟩ = false) ∧
    monitorTick ⟨[], true, false⟩ ≠ (⟨[], true, false⟩ : MonitorRun) ∧
    (monitorTick ⟨[], true, false⟩).buffer = [()] ∧
    (monitorTick ⟨[], true, false⟩).timerArmed = true :=
  ⟨rfl, by decide, rfl, rfl⟩

/-- Claim C1 as amended: each timer tick unconditionally appends the sample
to the stream's internal buffer and consults neither the timer nor the
consumer-readiness signal, and `_read` does nothing — so under a slow
consumer samples accumulate in the buffer, one per tick; sampling is never
paused by backpressure. -/
theorem tick_ignores_consumer_readiness (m : MonitorRun) :
    (monitorTick m).buffer = m.buffer ++ [()] ∧
    (monitorTick m).timerArmed = m.timerArmed ∧
    (monitorTick m).consumerReady = m.consumerReady ∧
    monitorRead m = m :=
  ⟨rfl, rfl, rfl, rfl⟩
